import Mathlib

/-!
# Verification of the uptime-kuma scheduling/queue slice

Shallow embedding of:
* `server/queue/queue-manager.js`   (class `QueueManager`)
* the queue integration facade (class `QueueIntegration`)
* `server/monitor-types/real-browser-monitor-type.js` (`RealBrowserMonitorType.check`,
  `getBrowser`, `getRemoteBrowser`)

Conventions:
* Machine integers are `Nat`/`Int`; millisecond delays are `ℚ` because
  `Math.random() * 10000` is fractional.
* Fallible JS code is embedded with `Except String`.
* The BullMQ queue is modelled by the list of outstanding (waiting/delayed)
  jobs plus a counter for auto-generated job ids.
-/

namespace UptimeKuma

/-- A monitor row as consumed by the queue manager: `id`, `interval` (seconds)
and `active`.  `interval = 0` models a missing/zero (JS-falsy) interval, which
triggers the `monitor.interval || 60` fallback. -/
structure QMonitor where
  id : Nat
  interval : Nat
  active : Bool
  deriving DecidableEq, Repr

/-- A BullMQ job id.  `scheduleNextCheck` and `startAllMonitors` pass the
template string `"monitor-" ++ id ++ "-" ++ Date.now()`; that string format is
injective in the pair `(id, now)` (decimal digit strings contain no dash), so
it is embedded as the constructor `stamped id now`.  When no `jobId` option is
given (the facade's `startMonitor`), BullMQ generates a fresh numeric id,
embedded as `auto n`; those numeric strings never coincide with the
`"monitor-..."` strings. -/
inductive JobId where
  | stamped (monitorId : Nat) (now : Nat)
  | auto (n : Nat)
  deriving DecidableEq, Repr

/-- One outstanding queue job: its name, payload (`{ monitorId }`), delay in
milliseconds relative to `enqueuedAt`, enqueue instant, and job id. -/
structure Job where
  name : String
  monitorId : Nat
  delay : ℚ
  enqueuedAt : Nat
  jobId : JobId
  deriving DecidableEq, Repr

/-- Instant (ms epoch) at which a delayed job becomes eligible to run. -/
def Job.dueAt (j : Job) : ℚ := (j.enqueuedAt : ℚ) + j.delay

/-- The `monitor-checks` queue: outstanding (waiting/delayed) jobs in enqueue
order, plus BullMQ's counter for auto-generated job ids. -/
structure MonitorQueue where
  jobs : List Job
  nextAutoId : Nat
  deriving DecidableEq, Repr

/-- The empty queue right after construction. -/
def MonitorQueue.empty : MonitorQueue := ⟨[], 0⟩

/-- Embeds `Queue.add(name, data, opts)`.  With an explicit `jobId` BullMQ ignores the
add when a job with that id already exists (the dedup that the spec calls the
"uniqueness token"); with no `jobId` a fresh auto id is used and the job is
always added. -/
def MonitorQueue.add (q : MonitorQueue) (name : String) (monitorId : Nat)
    (delay : ℚ) (now : Nat) (jobId? : Option JobId) : MonitorQueue :=
  match jobId? with
  | some jid =>
      if q.jobs.any (fun j => j.jobId = jid) then q
      else { q with jobs := q.jobs ++ [⟨name, monitorId, delay, now, jid⟩] }
  | none =>
      { jobs := q.jobs ++ [⟨name, monitorId, delay, now, .auto q.nextAutoId⟩],
        nextAutoId := q.nextAutoId + 1 }

/-- Number of outstanding jobs for a given monitor id. -/
def MonitorQueue.outstandingFor (q : MonitorQueue) (monitorId : Nat) : Nat :=
  (q.jobs.filter (fun j => j.monitorId = monitorId)).length

/-- Embeds `QueueManager.scheduleNextCheck(monitor)`:
`delay = (monitor.interval || 60) * 1000` and
`add("monitor-" + id, { monitorId: id }, { delay, jobId: "monitor-" + id + "-" + Date.now() })`.
`now` is `Date.now()` at the moment of the call. -/
def scheduleNextCheck (q : MonitorQueue) (m : QMonitor) (now : Nat) : MonitorQueue :=
  let delay : ℚ := ((if m.interval = 0 then 60 else m.interval : Nat) : ℚ) * 1000
  q.add ("monitor-" ++ toString m.id) m.id delay now (some (.stamped m.id now))

/-- Embeds `QueueIntegration.startMonitor(monitorId)` in queue mode:
`monitorQueue.add("monitor-" + monitorId, { monitorId }, { delay: 0 })` —
no `jobId` option, so a fresh auto id is used. -/
def startMonitorQueue (q : MonitorQueue) (monitorId : Nat) (now : Nat) : MonitorQueue :=
  q.add ("monitor-" ++ toString monitorId) monitorId 0 now none

/-- One entry of the bulk-job array built by `startAllMonitors`:
`{ name: "monitor-" + id, data: { monitorId: id },
   opts: { delay: Math.random() * 10000, jobId: "monitor-" + id + "-" + Date.now() } }`,
for a monitor paired with its `Math.random()` draw. -/
def startJob (now : Nat) (p : QMonitor × ℚ) : Job :=
  ⟨"monitor-" ++ toString p.1.id, p.1.id, p.2 * 10000, now, .stamped p.1.id now⟩

/-- Embeds `Queue.addBulk(jobs)`: add each entry in order (per-entry `jobId` dedup
applies exactly as for `add`). -/
def MonitorQueue.addBulk (q : MonitorQueue) (jobs : List Job) : MonitorQueue :=
  jobs.foldl
    (fun acc j => acc.add j.name j.monitorId j.delay j.enqueuedAt (some j.jobId)) q

/-- Embeds `QueueManager.startAllMonitors()`: `obliterate({ force: true })` (wipe all
jobs), then `addBulk` of one job per active monitor with
`delay = Math.random() * 10000` and `jobId = "monitor-" + id + "-" + Date.now()`.
`monitors` is the result of `R.find("monitor", "active = 1")`, `rands` the
successive `Math.random()` draws, `now` the shared `Date.now()`. -/
def startAllMonitors (q : MonitorQueue) (monitors : List QMonitor) (rands : List ℚ)
    (now : Nat) : MonitorQueue :=
  MonitorQueue.addBulk { q with jobs := [] } ((monitors.zip rands).map (startJob now))

/-- Result value of `processMonitorJob`: resolves with `completed` or
`skipped`, or rejects (`throw error`) — `failed`. -/
inductive JobResult where
  | completed
  | skipped
  | failed
  deriving DecidableEq, Repr

/-- Embeds `QueueManager.processMonitorJob(job)`.
`db` stands for `R.findOne("monitor", "id = ? AND active = 1", [monitorId])`
(`none` when the monitor is missing or inactive).  `beatOk` is whether
`executeMonitorBeat` (→ `monitor.performCheck(io)`) resolves; when it rejects
the catch block rethrows (`failed`) without scheduling anything.  On success
`scheduleNextCheck` runs at instant `now` (the completion time of the check). -/
def processMonitorJob (db : Nat → Option QMonitor) (beatOk : Bool)
    (monitorId : Nat) (q : MonitorQueue) (now : Nat) : JobResult × MonitorQueue :=
  match db monitorId with
  | none => (.skipped, q)
  | some m =>
      if beatOk then (.completed, scheduleNextCheck q m now)
      else (.failed, q)

/-- BullMQ driving a job whose handler is `processMonitorJob`, with the
queue's `defaultJobOptions` retry policy (`attempts`, exponential backoff):
attempt `i` (0-based) runs at instant `nows i` with beat outcome `beat i`;
a rejected attempt is retried while attempts remain; once attempts are
exhausted the job is abandoned (left `failed`). -/
def runJobWithRetries (db : Nat → Option QMonitor) (beat : Nat → Bool)
    (nows : Nat → Nat) (monitorId : Nat) :
    Nat → Nat → MonitorQueue → JobResult × MonitorQueue
  | 0, _, q => (.failed, q)
  | attemptsLeft + 1, i, q =>
      match processMonitorJob db (beat i) monitorId q (nows i) with
      | (.failed, q') => runJobWithRetries db beat nows monitorId attemptsLeft (i + 1) q'
      | r => r

/-- The `attempts: 3` option from the queue's `defaultJobOptions`. -/
def defaultAttempts : Nat := 3

/-- The `backoff: { type: "exponential", delay: 2000 }` option: BullMQ waits
`2000 * 2^(attemptsMade - 1)` ms before retry number `attemptsMade`. -/
def backoffDelay (attemptsMade : Nat) : Nat := 2000 * 2 ^ (attemptsMade - 1)

/-! ## The queue integration facade (`QueueIntegration`) -/

/-- Facade state: `queueManager` (null until a successful construction),
`isQueueMode` (`ENABLE_QUEUE_MODE === "true"` at construction, mutable),
`isInitialized`. -/
structure FacadeState where
  queueManager : Option MonitorQueue
  isQueueMode : Bool
  isInitialized : Bool
  deriving DecidableEq, Repr

/-- Embeds `new QueueIntegration()` with the given value of
`process.env.ENABLE_QUEUE_MODE === "true"`. -/
def FacadeState.mk0 (queueModeEnv : Bool) : FacadeState :=
  ⟨none, queueModeEnv, false⟩

/-- Embeds `QueueIntegration.initialize()`.  `ctorOk` is whether
`new QueueManager()` returns normally; when it throws, the assignment to
`this.queueManager` never happens, the error is caught and
`this.isQueueMode = false` (fallback to traditional mode). -/
def FacadeState.tryInit (s : FacadeState) (ctorOk : Bool) : FacadeState :=
  if s.isQueueMode ∧ ¬s.isInitialized then
    if ctorOk then { s with queueManager := some .empty, isInitialized := true }
    else { s with isQueueMode := false }
  else s

/-- The guard `this.isQueueMode && this.queueManager` used by
`startAllMonitors` / `startMonitor` / `stopMonitor` / `getStats` to pick the
queue path over the traditional path. -/
def FacadeState.usesQueuePath (s : FacadeState) : Bool :=
  s.isQueueMode && s.queueManager.isSome

/-- The `mode` field of `QueueIntegration.getStats()`. -/
def FacadeState.statsMode (s : FacadeState) : String :=
  if s.usesQueuePath then "queue" else "traditional"

/-- Facade operations observable for the fallback claim.  `startAllMonitors`
carries the `ctorOk` outcome of the `initialize()` it performs first;
`startMonitor`/`stopMonitor` do not call `initialize()`. -/
inductive FacadeOp where
  | tryInit (ctorOk : Bool)
  | startAllMonitors (ctorOk : Bool)
  | startMonitor (monitorId : Nat) (now : Nat)
  | stopMonitor (monitorId : Nat)
  deriving DecidableEq, Repr

/-- Apply one facade operation; the `Bool` reports whether the queue path was
taken (`true`) or the traditional path (`false`). -/
def FacadeState.applyOp (s : FacadeState) : FacadeOp → FacadeState × Bool
  | .tryInit ctorOk => (s.tryInit ctorOk, s.usesQueuePath)
  | .startAllMonitors ctorOk =>
      let s' := s.tryInit ctorOk
      if s'.usesQueuePath then
        -- queue path: queueManager.startAllMonitors() (queue contents irrelevant here)
        (s', true)
      else (s', false)
  | .startMonitor monitorId now =>
      if s.usesQueuePath then
        ({ s with queueManager := s.queueManager.map (startMonitorQueue · monitorId now) }, true)
      else (s, false)
  | .stopMonitor monitorId =>
      if s.usesQueuePath then
        let remove : MonitorQueue → MonitorQueue :=
          fun q => { q with jobs := q.jobs.filter (fun j => j.monitorId ≠ monitorId) }
        ({ s with queueManager := s.queueManager.map remove }, true)
      else (s, false)

/-- Run a sequence of facade operations. -/
def FacadeState.runOps (s : FacadeState) : List FacadeOp → FacadeState
  | [] => s
  | op :: ops => ((s.applyOp op).1).runOps ops

/-- Returns `true` iff every operation of the run takes the traditional path. -/
def FacadeState.allTraditional (s : FacadeState) : List FacadeOp → Bool
  | [] => true
  | op :: ops => !(s.applyOp op).2 && ((s.applyOp op).1).allTraditional ops

/-! ## The real-browser check (`real-browser-monitor-type.js`) -/

/-- The process-wide `browser` module variable: either a locally launched
chromium (`chromium.launch`, identified by a launch counter) or a remote
connection (`chromium.connect(remoteBrowser.url)`). -/
inductive BrowserHandle where
  | localBrowser (launchId : Nat)
  | remoteBrowser (url : String)
  deriving DecidableEq, Repr

/-- Monitor fields consumed by `RealBrowserMonitorType.check`. -/
structure BMonitor where
  id : Nat
  name : String
  url : String
  remote_browser : Option Nat
  user_id : Nat
  deriving DecidableEq, Repr

/-- Server fields consumed by the check (`server.jwtSecret`). -/
structure BServer where
  jwtSecret : String
  deriving DecidableEq, Repr

/-- The directories `Database.screenshotDir` / `Database.videoDir`. -/
structure DatabaseDirs where
  screenshotDir : String
  videoDir : String
  deriving DecidableEq, Repr

/-- Embeds `jwt.sign(monitor.id, server.jwtSecret)`.  A JWS compact token is
`base64url(header) ++ "." ++ base64url(payload) ++ "." ++ HMAC(secret, ...)`;
it is a deterministic function of `(payload, secret)` (a non-object payload
gets no `iat` claim), and distinct payloads yield distinct tokens because the
token embeds the payload's injective base64url encoding.  The structure keeps
the two inputs; the concrete signature bytes are abstracted away. -/
structure SignedToken where
  payload : Nat
  secret : String
  deriving DecidableEq, Repr

/-- Embeds `jwt.sign(payload, secret)` for the numeric monitor-id payload. -/
def jwtSign (payload : Nat) (secret : String) : SignedToken := ⟨payload, secret⟩

/-- Embeds `path.join(dir, filename + ext)` where `filename` is the signed token. -/
structure ArtifactPath where
  dir : String
  filename : SignedToken
  ext : String
  deriving DecidableEq, Repr

/-- The screenshot path `path.join(Database.screenshotDir, filename + ".png")`
computed by the check for a monitor. -/
def screenshotPathOf (dirs : DatabaseDirs) (srv : BServer) (m : BMonitor) : ArtifactPath :=
  ⟨dirs.screenshotDir, jwtSign m.id srv.jwtSecret, ".png"⟩

/-- The video path `path.join(Database.videoDir, filename + ".webm")`. -/
def videoPathOf (dirs : DatabaseDirs) (srv : BServer) (m : BMonitor) : ArtifactPath :=
  ⟨dirs.videoDir, jwtSign m.id srv.jwtSecret, ".webm"⟩

/-- Embeds `new URL(url).protocol` for a well-formed absolute URL: the scheme up to
and including the first colon (computed on the character list so it reduces). -/
def urlProtocol (url : String) : String := ⟨url.data.takeWhile (· ≠ ':') ++ [':']⟩

/-- The response `res` of `page.goto`: HTTP status and `res.request().timing().responseEnd`. -/
structure NavResponse where
  status : Nat
  responseEnd : ℚ
  deriving DecidableEq, Repr

/-- External-world outcomes for one execution of the check.  `isConnected`
answers `browser.isConnected()` for the cached handle at `getBrowser` time;
`launchResult` folds settings lookup, executable preparation and
`chromium.launch` into one outcome; `remoteLookup` is
`RemoteBrowser.get(remoteBrowserID, userId)` returning the endpoint url;
`connectResult` is `chromium.connect`; `gotoResult` is the navigation outcome;
`screenshotOk` whether `page.screenshot` resolves; `videoSaveOk` whether the
(caught) video-save block succeeds. -/
structure CheckEnv where
  isConnected : BrowserHandle → Bool
  launchResult : Except String Nat
  remoteLookup : Nat → Nat → Except String String
  connectResult : Except String Unit
  gotoResult : Except String NavResponse
  screenshotOk : Bool
  videoSaveOk : Bool

/-- Embeds `getBrowser()`: reuse the cached `browser` if set and still connected,
otherwise launch a new local chromium and cache it (on a launch error the
cache is left unchanged). -/
def getBrowser (env : CheckEnv) (gst : Option BrowserHandle) :
    Except String BrowserHandle × Option BrowserHandle :=
  match gst with
  | some b =>
      if env.isConnected b then (.ok b, some b)
      else
        match env.launchResult with
        | .ok n => (.ok (.localBrowser n), some (.localBrowser n))
        | .error e => (.error e, gst)
  | none =>
      match env.launchResult with
      | .ok n => (.ok (.localBrowser n), some (.localBrowser n))
      | .error e => (.error e, gst)

/-- Embeds `getRemoteBrowser(remoteBrowserID, userId)`: look up the remote browser
row, `chromium.connect` to its url, and assign the module-wide `browser`
variable to the connection. -/
def getRemoteBrowser (remoteBrowserID userId : Nat) (env : CheckEnv)
    (gst : Option BrowserHandle) :
    Except String BrowserHandle × Option BrowserHandle :=
  match env.remoteLookup remoteBrowserID userId with
  | .error e => (.error e, gst)
  | .ok url =>
      match env.connectResult with
      | .error e => (.error e, gst)
      | .ok _ => (.ok (.remoteBrowser url), some (.remoteBrowser url))

/-- Embeds `const browser = monitor.remote_browser ? await getRemoteBrowser(monitor.remote_browser,
monitor.user_id) : await getBrowser();` — the first statement of `check`. -/
def acquireBrowser (m : BMonitor) (env : CheckEnv) (gst : Option BrowserHandle) :
    Except String BrowserHandle × Option BrowserHandle :=
  match m.remote_browser with
  | some rid => getRemoteBrowser rid m.user_id env gst
  | none => getBrowser env gst

/-- The `UP` status constant from `src/util`. -/
def UP : Nat := 1

/-- Heartbeat fields written by the check on the up path. -/
structure Heartbeat where
  status : Nat
  msg : String
  ping : ℚ
  deriving DecidableEq, Repr

/-- The hard-coded navigation target of the check:
`const testUrl = "https://example.com";` (comment in source:
"FORCE URL TO EXAMPLE.COM FOR TESTING"). -/
def forcedTestUrl : String := "https://example.com"

/-- The `page.goto` options used by the check. -/
def navigationWaitUntil : String := "networkidle"

/-- The `timeout: 30000` option (30 seconds) passed to `page.goto`. -/
def navigationTimeoutMs : Nat := 30000

/-- Observable events of one execution of `check`, for resource-lifecycle
reasoning: whether a browser handle was obtained, whether the isolated
browsing context was opened / closed, which URL `page.goto` was invoked on
(with which `waitUntil`/`timeout` options), and the artifact paths computed. -/
structure CheckTrace where
  browserAcquired : Bool
  contextOpened : Bool
  contextClosed : Bool
  navigatedUrl : Option String
  gotoOptions : Option (String × Nat)
  screenshotTakenAt : Option ArtifactPath
  videoTargetPath : Option ArtifactPath
  deriving DecidableEq, Repr

/-- The empty trace (nothing happened yet). -/
def CheckTrace.init : CheckTrace := ⟨false, false, false, none, none, none, none⟩

/-- Embeds `RealBrowserMonitorType.check(monitor, heartbeat, server)`.

Control flow of the source, in order: acquire a browser handle (remote or
shared-local); validate `new URL(monitor.url).protocol` against `http:`/
`https:` (throw otherwise); compute the token-derived screenshot/video paths;
`browser.newContext({recordVideo: ...})` and `context.newPage()`;
`page.goto(testUrl, { waitUntil: "networkidle", timeout: 30000 })` where
`testUrl` is the hard-coded `"https://example.com"`; wait 5 s; take the
screenshot; run the try/caught video-save block; `context.close()`; then
derive the heartbeat: status in `[200, 400)` is `UP` with
`ping = res.request().timing().responseEnd`, any other status throws.
There is no try/finally: an exception thrown by `page.goto` or
`page.screenshot` propagates without closing the context. -/
def check (m : BMonitor) (srv : BServer) (dirs : DatabaseDirs) (env : CheckEnv)
    (gst : Option BrowserHandle) :
    Except String Heartbeat × CheckTrace × Option BrowserHandle :=
  match acquireBrowser m env gst with
  | (.error e, gst') => (.error e, CheckTrace.init, gst')
  | (.ok _, gst') =>
      let tr0 : CheckTrace := { CheckTrace.init with browserAcquired := true }
      if urlProtocol m.url ≠ "http:" ∧ urlProtocol m.url ≠ "https:" then
        (.error "Invalid url protocol, only http and https are allowed.", tr0, gst')
      else
        let screenshotPath := screenshotPathOf dirs srv m
        let videoPath := videoPathOf dirs srv m
        let tr1 : CheckTrace :=
          { tr0 with contextOpened := true, videoTargetPath := some videoPath }
        let tr2 : CheckTrace :=
          { tr1 with navigatedUrl := some forcedTestUrl,
                     gotoOptions := some (navigationWaitUntil, navigationTimeoutMs) }
        match env.gotoResult with
        | .error e => (.error e, tr2, gst')
        | .ok res =>
            if !env.screenshotOk then
              (.error "screenshot failed", tr2, gst')
            else
              let tr3 : CheckTrace := { tr2 with screenshotTakenAt := some screenshotPath }
              let tr4 : CheckTrace := { tr3 with contextClosed := true }
              if 200 ≤ res.status ∧ res.status < 400 then
                (.ok ⟨UP, toString res.status, res.responseEnd⟩, tr4, gst')
              else
                (.error (toString res.status), tr4, gst')

/-! ## Theorems -/

/-- C1 counterexample: the "at most one outstanding ScheduledJob per monitor
id" invariant fails.  Starting from the empty queue, calling the facade's
`startMonitor(1)` twice (the second while the first job is still waiting)
leaves two outstanding jobs for monitor 1: `startMonitor` enqueues with
`{ delay: 0 }` and no `jobId`, so nothing deduplicates the adds. -/
theorem startMonitor_violates_single_job_invariant :
    ¬ ((startMonitorQueue (startMonitorQueue MonitorQueue.empty 1 1000) 1 2000).outstandingFor 1
        ≤ 1) := by
  decide

/-- C1 (amended): outstanding jobs are deduplicated only through BullMQ job
ids.  `scheduleNextCheck` passes `jobId = "monitor-" + id + "-" + Date.now()`,
so a duplicate enqueue for the same monitor at the same instant collapses into
one job (the call is idempotent at a fixed `Date.now()`); but `startMonitor`
enqueues with no job id, so each call unconditionally adds one more
outstanding job for the monitor, and the per-monitor-id invariant does not
hold in general. -/
theorem job_dedup_by_jobid_only :
    (∀ (q : MonitorQueue) (m : QMonitor) (now : Nat),
        scheduleNextCheck (scheduleNextCheck q m now) m now = scheduleNextCheck q m now) ∧
    (∀ (q : MonitorQueue) (monitorId now : Nat),
        (startMonitorQueue q monitorId now).outstandingFor monitorId =
          q.outstandingFor monitorId + 1) := by
  constructor
  · intro q m now
    simp only [scheduleNextCheck, MonitorQueue.add]
    by_cases h : q.jobs.any (fun j => j.jobId = JobId.stamped m.id now)
    · simp [h]
    · simp [h, List.any_append]
  · intro q monitorId now
    simp [startMonitorQueue, MonitorQueue.add, MonitorQueue.outstandingFor,
      List.filter_append]

/-- C2 counterexample: monitor 7 is active with interval 60, but its executor
rejects on every attempt.  After the queue's 3 attempts are exhausted the job
is abandoned and the queue holds *zero* further jobs for monitor 7 — not the
one next-interval job the claim requires: `processMonitorJob` only calls
`scheduleNextCheck` after a successful `executeMonitorBeat`, and the
worker's `failed` handler merely logs. -/
theorem exhausted_retries_leave_no_next_job :
    (runJobWithRetries (fun i => if i = 7 then some ⟨7, 60, true⟩ else none)
        (fun _ => false) (fun i => 1000 * i) 7 defaultAttempts 0 MonitorQueue.empty).2
      = MonitorQueue.empty ∧
    ¬ ((runJobWithRetries (fun i => if i = 7 then some ⟨7, 60, true⟩ else none)
        (fun _ => false) (fun i => 1000 * i) 7 defaultAttempts 0 MonitorQueue.empty).2.outstandingFor 7
        = 1) := by
  decide

/-- C2 (amended): an unhandled executor exception is retried by the queue's
bounded policy (`attempts: 3`, exponential backoff starting at 2000 ms); once
retries are exhausted the job is abandoned with the queue unchanged — *no*
further job for that monitor is scheduled, so a permanently failing check
halts that monitor's future scheduling (the next-interval job is enqueued
only when an attempt completes successfully). -/
theorem exhausted_retries_halt_scheduling (db : Nat → Option QMonitor)
    (beat : Nat → Bool) (nows : Nat → Nat) (monitorId : Nat) (m : QMonitor)
    (q : MonitorQueue)
    (hdb : db monitorId = some m)
    (hbeat : ∀ k, beat k = false) :
    runJobWithRetries db beat nows monitorId defaultAttempts 0 q = (.failed, q) ∧
    defaultAttempts = 3 ∧ backoffDelay 1 = 2000 ∧ backoffDelay 2 = 4000 ∧
    backoffDelay 3 = 8000 := by
  refine ⟨?_, rfl, rfl, rfl, rfl⟩
  simp [defaultAttempts, runJobWithRetries, processMonitorJob, hdb, hbeat]

/-- C2 witness: the amended theorem applied to the concrete always-failing
monitor 7. -/
theorem exhausted_retries_halt_scheduling_witness :
    runJobWithRetries (fun i => if i = 7 then some ⟨7, 60, true⟩ else none)
        (fun _ => false) (fun i => 1000 * i) 7 defaultAttempts 0 MonitorQueue.empty
      = (.failed, MonitorQueue.empty) :=
  (exhausted_retries_halt_scheduling (fun i => if i = 7 then some ⟨7, 60, true⟩ else none)
    (fun _ => false) (fun i => 1000 * i) 7 ⟨7, 60, true⟩ MonitorQueue.empty
    (by decide) (fun _ => rfl)).1

/-- C7: when a check for an active monitor with interval `I ≥ 1` completes
successfully at instant `now`, exactly one next job is enqueued, with delay
exactly `I * 1000` ms relative to its enqueue instant `now` — the completion
time of the current check, not the previous run's start time — so the job
becomes due at `now + I * 1000`.  (`hfresh` says the timestamped job id is not
already taken, so BullMQ's dedup does not swallow the add.) -/
theorem next_check_delay_is_interval_from_completion (db : Nat → Option QMonitor)
    (m : QMonitor) (q : MonitorQueue) (monitorId now : Nat)
    (hdb : db monitorId = some m)
    (hI : 1 ≤ m.interval)
    (hfresh : ∀ j ∈ q.jobs, j.jobId ≠ .stamped m.id now) :
    processMonitorJob db true monitorId q now =
      (.completed,
        { q with jobs := q.jobs ++
            [⟨"monitor-" ++ toString m.id, m.id, (m.interval : ℚ) * 1000, now,
              .stamped m.id now⟩] }) ∧
    (Job.dueAt ⟨"monitor-" ++ toString m.id, m.id, (m.interval : ℚ) * 1000, now,
        .stamped m.id now⟩) = (now : ℚ) + (m.interval : ℚ) * 1000 := by
  have hne : m.interval ≠ 0 := by omega
  have hany : q.jobs.any (fun j => j.jobId = JobId.stamped m.id now) = false := by
    simp only [List.any_eq_false, decide_eq_true_eq]
    intro j hj
    exact hfresh j hj
  constructor
  · simp [processMonitorJob, hdb, scheduleNextCheck, MonitorQueue.add, hne, hany]
  · simp [Job.dueAt]

/-- C7 witness: the theorem applied to a concrete monitor with interval 60
completing at `now = 5000`: the next job is due at `5000 + 60000`. -/
theorem next_check_delay_witness :
    processMonitorJob (fun i => if i = 3 then some ⟨3, 60, true⟩ else none) true 3
        MonitorQueue.empty 5000 =
      (.completed,
        { jobs := [⟨"monitor-" ++ toString 3, 3, (60 : ℚ) * 1000, 5000,
            .stamped 3 5000⟩],
          nextAutoId := 0 }) :=
  (next_check_delay_is_interval_from_completion
    (fun i => if i = 3 then some ⟨3, 60, true⟩ else none) ⟨3, 60, true⟩
    MonitorQueue.empty 3 5000 (by decide) (by decide) (by simp [MonitorQueue.empty])).1

/-- Once the facade is in traditional mode (`isQueueMode = false`), every
operation leaves the state unchanged and takes the traditional path:
`initialize` is guarded by `isQueueMode`, and the other operations are guarded
by `isQueueMode && queueManager`. -/
theorem applyOp_of_traditional (s : FacadeState) (op : FacadeOp)
    (h : s.isQueueMode = false) : s.applyOp op = (s, false) := by
  cases op <;>
    simp [FacadeState.applyOp, FacadeState.tryInit, FacadeState.usesQueuePath, h]

/-- Traditional mode is a sink: a whole run of operations from a traditional
state changes nothing and never takes the queue path. -/
theorem runOps_of_traditional (s : FacadeState) (h : s.isQueueMode = false) :
    ∀ ops : List FacadeOp,
      FacadeState.runOps s ops = s ∧ FacadeState.allTraditional s ops = true
  | [] => ⟨rfl, rfl⟩
  | op :: ops => by
      have h2 := applyOp_of_traditional s op h
      have ih := runOps_of_traditional s h ops
      refine ⟨?_, ?_⟩
      · show FacadeState.runOps (s.applyOp op).1 ops = s
        rw [h2]
        exact ih.1
      · show (!(s.applyOp op).2 && ((s.applyOp op).1).allTraditional ops) = true
        rw [h2]
        simpa using ih.2

/-- C3: with queue mode enabled, if `new QueueManager()` throws during the
first `initialize()`, the facade permanently falls back to traditional mode:
`isQueueMode` becomes `false`, `queueManager` stays null, `getStats().mode`
is `"traditional"`, and *every* subsequent operation sequence — including
later `initialize()` calls whose construction would have succeeded — leaves
the state unchanged and takes the traditional path; promotion to queue mode
is never retried. -/
theorem fallback_to_traditional_is_permanent (ops : List FacadeOp) :
    ((FacadeState.mk0 true).tryInit false).isQueueMode = false ∧
    ((FacadeState.mk0 true).tryInit false).queueManager = none ∧
    ((FacadeState.mk0 true).tryInit false).statsMode = "traditional" ∧
    FacadeState.runOps ((FacadeState.mk0 true).tryInit false) ops =
      (FacadeState.mk0 true).tryInit false ∧
    (FacadeState.runOps ((FacadeState.mk0 true).tryInit false) ops).statsMode
      = "traditional" ∧
    FacadeState.allTraditional ((FacadeState.mk0 true).tryInit false) ops = true := by
  have h : ((FacadeState.mk0 true).tryInit false).isQueueMode = false := by decide
  have hrun := runOps_of_traditional _ h ops
  refine ⟨h, by decide, by decide, hrun.1, ?_, hrun.2⟩
  rw [hrun.1]
  decide

/-- The module-wide `browser` variable after `check` is exactly what the
initial browser acquisition left there: no later statement of `check`
reassigns it, on any path. -/
theorem check_globalBrowser_eq_acquire (m : BMonitor) (srv : BServer)
    (dirs : DatabaseDirs) (env : CheckEnv) (gst : Option BrowserHandle) :
    (check m srv dirs env gst).2.2 = (acquireBrowser m env gst).2 := by
  unfold check
  rcases hacq : acquireBrowser m env gst with ⟨res, gst'⟩
  cases res with
  | error e => rfl
  | ok b =>
      simp only []
      split
      · rfl
      · split
        · rfl
        · split
          · rfl
          · split <;> rfl

/-- C10 (implicit claim): a check that uses a remote browser assigns the
remote connection to the same process-wide shared `browser` variable used by
local checks.  While that connection still reports `isConnected()`, a
subsequent check for a monitor *without* `remote_browser` is served the
remote browser by `getBrowser()` — no local browser is launched. -/
theorem remote_connection_served_to_local_checks
    (mA mB : BMonitor) (srv : BServer) (dirs : DatabaseDirs)
    (envA envB : CheckEnv) (gst : Option BrowserHandle) (rid : Nat) (url : String)
    (hA : mA.remote_browser = some rid)
    (hlookup : envA.remoteLookup rid mA.user_id = Except.ok url)
    (hconn : envA.connectResult = Except.ok ())
    (hB : mB.remote_browser = none)
    (hlive : envB.isConnected (.remoteBrowser url) = true) :
    (check mA srv dirs envA gst).2.2 = some (.remoteBrowser url) ∧
    acquireBrowser mB envB (check mA srv dirs envA gst).2.2 =
      (Except.ok (.remoteBrowser url), some (.remoteBrowser url)) := by
  have hacq : acquireBrowser mA envA gst =
      (Except.ok (.remoteBrowser url), some (.remoteBrowser url)) := by
    simp [acquireBrowser, hA, getRemoteBrowser, hlookup, hconn]
  have hg : (check mA srv dirs envA gst).2.2 = some (.remoteBrowser url) := by
    rw [check_globalBrowser_eq_acquire, hacq]
  refine ⟨hg, ?_⟩
  rw [hg]
  simp [acquireBrowser, hB, getBrowser, hlive]

/-- C10 witness: concrete remote check for monitor 4 via remote browser 2 at
`ws://remote:3000`, followed by a local-check acquisition for monitor 6. -/
theorem remote_connection_served_to_local_checks_witness :
    (check ⟨4, "a", "https://a.example", some 2, 1⟩ ⟨"s"⟩ ⟨"sd", "vd"⟩
        ⟨fun _ => true, Except.ok 0, fun _ _ => Except.ok "ws://remote:3000",
          Except.ok (), Except.ok ⟨200, 10⟩, true, true⟩ none).2.2
      = some (.remoteBrowser "ws://remote:3000") ∧
    acquireBrowser ⟨6, "b", "https://b.example", none, 1⟩
        ⟨fun _ => true, Except.ok 0, fun _ _ => Except.ok "ws://remote:3000",
          Except.ok (), Except.ok ⟨200, 10⟩, true, true⟩
        (check ⟨4, "a", "https://a.example", some 2, 1⟩ ⟨"s"⟩ ⟨"sd", "vd"⟩
          ⟨fun _ => true, Except.ok 0, fun _ _ => Except.ok "ws://remote:3000",
            Except.ok (), Except.ok ⟨200, 10⟩, true, true⟩ none).2.2
      = (Except.ok (.remoteBrowser "ws://remote:3000"),
          some (.remoteBrowser "ws://remote:3000")) :=
  remote_connection_served_to_local_checks
    ⟨4, "a", "https://a.example", some 2, 1⟩ ⟨6, "b", "https://b.example", none, 1⟩
    ⟨"s"⟩ ⟨"sd", "vd"⟩
    ⟨fun _ => true, Except.ok 0, fun _ _ => Except.ok "ws://remote:3000",
      Except.ok (), Except.ok ⟨200, 10⟩, true, true⟩
    ⟨fun _ => true, Except.ok 0, fun _ _ => Except.ok "ws://remote:3000",
      Except.ok (), Except.ok ⟨200, 10⟩, true, true⟩
    none 2 "ws://remote:3000" rfl rfl rfl rfl rfl

deriving instance DecidableEq for Except

/-- Whether `page.goto` resolved with a response (as opposed to throwing,
e.g. a navigation timeout). -/
def CheckEnv.gotoOk (env : CheckEnv) : Bool :=
  match env.gotoResult with
  | .ok _ => true
  | .error _ => false

/-- An environment in which `page.goto` throws a navigation timeout; all
other browser operations would succeed. -/
def timeoutEnv : CheckEnv :=
  ⟨fun _ => true, .ok 0, fun _ _ => .error "not a remote check", .ok (),
    .error "page.goto: Timeout 30000ms exceeded.", true, true⟩

/-- C4 counterexample: on the navigation-timeout exit path the browsing
context is *not* closed.  `page.goto` throws, there is no try/finally around
the block from `browser.newContext` to `context.close()`, so the exception
propagates out of `check` with the context still open — the claim's "closed
on every exit path" fails. -/
theorem navigation_timeout_leaks_context :
    (check ⟨1, "m", "https://target.example", none, 1⟩ ⟨"secret"⟩ ⟨"sdir", "vdir"⟩
        timeoutEnv (some (.localBrowser 0))).1
      = .error "page.goto: Timeout 30000ms exceeded." ∧
    (check ⟨1, "m", "https://target.example", none, 1⟩ ⟨"secret"⟩ ⟨"sdir", "vdir"⟩
        timeoutEnv (some (.localBrowser 0))).2.1.contextOpened = true ∧
    (check ⟨1, "m", "https://target.example", none, 1⟩ ⟨"secret"⟩ ⟨"sdir", "vdir"⟩
        timeoutEnv (some (.localBrowser 0))).2.1.contextClosed = false := by
  refine ⟨by decide, by decide, by decide⟩

/-- C4 (amended): the context is closed exactly on the executions where it
was opened, navigation returned a response, and the screenshot write
succeeded — this includes normal completion and the non-[200,400)-status
path (which closes the context before throwing the status error), but *not*
the paths where `page.goto` or `page.screenshot` throws: there the exception
propagates with the context left open. -/
theorem context_closed_iff_nav_and_screenshot_ok (m : BMonitor) (srv : BServer)
    (dirs : DatabaseDirs) (env : CheckEnv) (gst : Option BrowserHandle) :
    (check m srv dirs env gst).2.1.contextClosed
      = ((check m srv dirs env gst).2.1.contextOpened
          && env.gotoOk && env.screenshotOk) := by
  unfold check
  rcases hacq : acquireBrowser m env gst with ⟨res, gst'⟩
  cases res with
  | error e => rfl
  | ok b =>
      simp only []
      by_cases hp : urlProtocol m.url ≠ "http:" ∧ urlProtocol m.url ≠ "https:"
      · rw [if_pos hp]
        simp [CheckTrace.init]
      · rw [if_neg hp]
        rcases hgoto : env.gotoResult with e | r
        · simp [CheckEnv.gotoOk, hgoto, CheckTrace.init]
        · cases hss : env.screenshotOk with
          | false => simp [CheckEnv.gotoOk, hgoto, hss, CheckTrace.init]
          | true =>
              simp only [hss, Bool.not_true]
              rw [if_neg (by simp)]
              split <;> simp [CheckEnv.gotoOk, hgoto, CheckTrace.init]

/-- An environment for a check whose navigation would succeed with a 200
response; used with a `file://` monitor below. -/
def fileSchemeEnv : CheckEnv :=
  ⟨fun _ => false, .ok 7, fun _ _ => .error "not a remote check", .ok (),
    .ok ⟨200, 42⟩, true, true⟩

/-- C5 counterexample: for a `file://` monitor the check does throw the
configuration error, but only *after* a browser resource has been acquired:
the first statement of `check` runs `getBrowser()`, which here launches a
local shared browser (the module `browser` variable ends up set), and the
protocol validation happens afterwards. -/
theorem scheme_rejected_after_browser_acquired :
    (check ⟨2, "m", "file:///etc/passwd", none, 1⟩ ⟨"secret"⟩ ⟨"sdir", "vdir"⟩
        fileSchemeEnv none).1
      = .error "Invalid url protocol, only http and https are allowed." ∧
    (check ⟨2, "m", "file:///etc/passwd", none, 1⟩ ⟨"secret"⟩ ⟨"sdir", "vdir"⟩
        fileSchemeEnv none).2.1.browserAcquired = true ∧
    (check ⟨2, "m", "file:///etc/passwd", none, 1⟩ ⟨"secret"⟩ ⟨"sdir", "vdir"⟩
        fileSchemeEnv none).2.2 = some (.localBrowser 7) := by
  refine ⟨by decide, by decide, by decide⟩

/-- C5 (amended): a non-http(s) URL scheme is rejected as a configuration
error after the browser handle is acquired, but before any browsing context
is opened and before any navigation — provided the browser acquisition
itself succeeded (`hacq`). -/
theorem bad_scheme_rejected_before_context (m : BMonitor) (srv : BServer)
    (dirs : DatabaseDirs) (env : CheckEnv) (gst : Option BrowserHandle)
    (b : BrowserHandle) (gst' : Option BrowserHandle)
    (hacq : acquireBrowser m env gst = (.ok b, gst'))
    (hscheme : urlProtocol m.url ≠ "http:" ∧ urlProtocol m.url ≠ "https:") :
    (check m srv dirs env gst).1
      = .error "Invalid url protocol, only http and https are allowed." ∧
    (check m srv dirs env gst).2.1.browserAcquired = true ∧
    (check m srv dirs env gst).2.1.contextOpened = false ∧
    (check m srv dirs env gst).2.1.navigatedUrl = none := by
  unfold check
  rw [hacq]
  simp [hscheme, CheckTrace.init]

/-- C5 amended-claim witness: the `ftp://` monitor 8, with the browser cache
already holding a connected local browser. -/
theorem bad_scheme_rejected_before_context_witness :
    (check ⟨8, "m", "ftp://files.example/a.txt", none, 1⟩ ⟨"secret"⟩ ⟨"sd", "vd"⟩
        ⟨fun _ => true, .ok 0, fun _ _ => .error "no remote", .ok (),
          .ok ⟨200, 1⟩, true, true⟩ (some (.localBrowser 3))).1
      = .error "Invalid url protocol, only http and https are allowed." ∧
    (check ⟨8, "m", "ftp://files.example/a.txt", none, 1⟩ ⟨"secret"⟩ ⟨"sd", "vd"⟩
        ⟨fun _ => true, .ok 0, fun _ _ => .error "no remote", .ok (),
          .ok ⟨200, 1⟩, true, true⟩ (some (.localBrowser 3))).2.1.browserAcquired = true ∧
    (check ⟨8, "m", "ftp://files.example/a.txt", none, 1⟩ ⟨"secret"⟩ ⟨"sd", "vd"⟩
        ⟨fun _ => true, .ok 0, fun _ _ => .error "no remote", .ok (),
          .ok ⟨200, 1⟩, true, true⟩ (some (.localBrowser 3))).2.1.contextOpened = false ∧
    (check ⟨8, "m", "ftp://files.example/a.txt", none, 1⟩ ⟨"secret"⟩ ⟨"sd", "vd"⟩
        ⟨fun _ => true, .ok 0, fun _ _ => .error "no remote", .ok (),
          .ok ⟨200, 1⟩, true, true⟩ (some (.localBrowser 3))).2.1.navigatedUrl = none :=
  bad_scheme_rejected_before_context ⟨8, "m", "ftp://files.example/a.txt", none, 1⟩
    ⟨"secret"⟩ ⟨"sd", "vd"⟩
    ⟨fun _ => true, .ok 0, fun _ _ => .error "no remote", .ok (),
      .ok ⟨200, 1⟩, true, true⟩ (some (.localBrowser 3)) (.localBrowser 3)
    (some (.localBrowser 3)) rfl (by decide)

/-- C6 (code bug): the check never navigates to the monitor's configured
URL.  For monitor 9 configured with `https://mysite.example/health`, the
page is driven to the hard-coded `https://example.com` (source comment:
"FORCE URL TO EXAMPLE.COM FOR TESTING"), with `waitUntil: "networkidle"` and
the 30 s timeout; the up/latency derivation (status in [200,400) → `UP`,
ping from `timing().responseEnd`) is then computed from the response to
`example.com`, not to the monitor's URL. -/
theorem check_navigates_to_forced_url_not_monitor_url :
    (check ⟨9, "site", "https://mysite.example/health", none, 1⟩ ⟨"secret"⟩
        ⟨"sdir", "vdir"⟩
        ⟨fun _ => true, .ok 0, fun _ _ => .error "no remote", .ok (),
          .ok ⟨200, 123⟩, true, true⟩ (some (.localBrowser 0))).2.1.navigatedUrl
      = some forcedTestUrl ∧
    forcedTestUrl ≠ "https://mysite.example/health" ∧
    (check ⟨9, "site", "https://mysite.example/health", none, 1⟩ ⟨"secret"⟩
        ⟨"sdir", "vdir"⟩
        ⟨fun _ => true, .ok 0, fun _ _ => .error "no remote", .ok (),
          .ok ⟨200, 123⟩, true, true⟩ (some (.localBrowser 0))).2.1.gotoOptions
      = some ("networkidle", 30000) ∧
    (check ⟨9, "site", "https://mysite.example/health", none, 1⟩ ⟨"secret"⟩
        ⟨"sdir", "vdir"⟩
        ⟨fun _ => true, .ok 0, fun _ _ => .error "no remote", .ok (),
          .ok ⟨200, 123⟩, true, true⟩ (some (.localBrowser 0))).1
      = .ok ⟨UP, "200", 123⟩ := by
  refine ⟨by decide, by decide, by decide, by decide⟩

/-- Two distinct worlds for re-running monitor 5's check: different global
browser caches, different response latencies and different video outcomes. -/
def rerunEnvA : CheckEnv :=
  ⟨fun _ => true, .ok 0, fun _ _ => .error "no remote", .ok (), .ok ⟨200, 11⟩,
    true, true⟩

/-- Second world for the artifact-collision counterexample. -/
def rerunEnvB : CheckEnv :=
  ⟨fun _ => false, .ok 1, fun _ _ => .error "no remote", .ok (), .ok ⟨302, 99⟩,
    true, false⟩

/-- C9 counterexample: re-running the same monitor *does* collide with its
own prior run.  The artifact filename is `jwt.sign(monitor.id, jwtSecret)`,
a deterministic function of the monitor id and the server secret with no
per-run component: two executions of the check for monitor 5 — in different
worlds, at different latencies — record the screenshot to the *same* path,
contradicting the claim that a re-run's path does not collide with the prior
run's. -/
theorem rerun_artifact_path_collides :
    (check ⟨5, "m", "https://a.example", none, 1⟩ ⟨"secret"⟩ ⟨"sdir", "vdir"⟩
        rerunEnvA (some (.localBrowser 0))).2.1.screenshotTakenAt
      = some (screenshotPathOf ⟨"sdir", "vdir"⟩ ⟨"secret"⟩
          ⟨5, "m", "https://a.example", none, 1⟩) ∧
    (check ⟨5, "m", "https://a.example", none, 1⟩ ⟨"secret"⟩ ⟨"sdir", "vdir"⟩
        rerunEnvB none).2.1.screenshotTakenAt
      = some (screenshotPathOf ⟨"sdir", "vdir"⟩ ⟨"secret"⟩
          ⟨5, "m", "https://a.example", none, 1⟩) := by
  exact ⟨by decide, by decide⟩

/-- C9 (amended): artifact paths are a deterministic, injective function of
the monitor id (given the server's signing secret and artifact directories):
checks of two monitors with distinct ids can never collide — the signed
token embeds the payload, so distinct ids give distinct filenames — while
re-running the same monitor reproduces the *same* path on every run
(overwriting the prior artifact): whenever a run of `check` records a
screenshot at all, it records it at `screenshotPathOf dirs srv m`. -/
theorem artifact_paths_injective_and_deterministic (dirs : DatabaseDirs)
    (srv : BServer) (m1 m2 : BMonitor) (hid : m1.id ≠ m2.id) :
    screenshotPathOf dirs srv m1 ≠ screenshotPathOf dirs srv m2 ∧
    videoPathOf dirs srv m1 ≠ videoPathOf dirs srv m2 ∧
    (∀ (m : BMonitor) (env : CheckEnv) (gst : Option BrowserHandle),
      (check m srv dirs env gst).2.1.screenshotTakenAt = none ∨
      (check m srv dirs env gst).2.1.screenshotTakenAt
        = some (screenshotPathOf dirs srv m)) := by
  refine ⟨?_, ?_, ?_⟩
  · simp [screenshotPathOf, jwtSign]
    intro h
    exact absurd h hid
  · simp [videoPathOf, jwtSign]
    intro h
    exact absurd h hid
  · intro m env gst
    unfold check
    rcases hacq : acquireBrowser m env gst with ⟨res, gst'⟩
    cases res with
    | error e => left; rfl
    | ok b =>
        simp only []
        by_cases hp : urlProtocol m.url ≠ "http:" ∧ urlProtocol m.url ≠ "https:"
        · rw [if_pos hp]; left; rfl
        · rw [if_neg hp]
          rcases hgoto : env.gotoResult with e | r
          · left; rfl
          · cases hss : env.screenshotOk with
            | false => left; rfl
            | true =>
                simp only [hss, Bool.not_true]
                rw [if_neg (by simp)]
                split
                · right; rfl
                · right; rfl

/-- C9 amended-claim witness: monitors 5 and 6 under the same server secret
and directories have distinct screenshot and video paths. -/
theorem artifact_paths_injective_witness :
    screenshotPathOf ⟨"sdir", "vdir"⟩ ⟨"secret"⟩ ⟨5, "a", "https://a.example", none, 1⟩
      ≠ screenshotPathOf ⟨"sdir", "vdir"⟩ ⟨"secret"⟩ ⟨6, "b", "https://b.example", none, 1⟩ :=
  (artifact_paths_injective_and_deterministic ⟨"sdir", "vdir"⟩ ⟨"secret"⟩
    ⟨5, "a", "https://a.example", none, 1⟩ ⟨6, "b", "https://b.example", none, 1⟩
    (by decide)).1

/-- Applying `addBulk` over a batch whose job ids are pairwise distinct and absent
from the queue appends the whole batch: no dedup fires. -/
theorem addBulk_of_fresh (jobs : List Job) : ∀ q : MonitorQueue,
    (∀ j ∈ jobs, ∀ j0 ∈ q.jobs, j0.jobId ≠ j.jobId) →
    (jobs.map Job.jobId).Nodup →
    (q.addBulk jobs).jobs = q.jobs ++ jobs := by
  induction jobs with
  | nil => intro q _ _; simp [MonitorQueue.addBulk]
  | cons j rest ih =>
      intro q hfresh hnodup
      have hany : q.jobs.any (fun j0 => j0.jobId = j.jobId) = false := by
        simp only [List.any_eq_false, decide_eq_true_eq]
        intro j0 hj0
        exact hfresh j (List.mem_cons_self _ _) j0 hj0
      have hstep : (q.add j.name j.monitorId j.delay j.enqueuedAt (some j.jobId)).jobs
          = q.jobs ++ [j] := by
        simp [MonitorQueue.add, hany]
      rw [List.map_cons] at hnodup
      have hnd := List.nodup_cons.1 hnodup
      have hrest : ∀ j' ∈ rest,
          ∀ j0 ∈ (q.add j.name j.monitorId j.delay j.enqueuedAt (some j.jobId)).jobs,
            j0.jobId ≠ j'.jobId := by
        intro j' hj' j0 hj0
        rw [hstep] at hj0
        rcases List.mem_append.1 hj0 with h0 | h0
        · exact hfresh j' (List.mem_cons_of_mem _ hj') j0 h0
        · have hj0j : j0 = j := by simpa using h0
          subst hj0j
          intro hEq
          apply hnd.1
          rw [hEq]
          exact List.mem_map_of_mem Job.jobId hj'
      have hnodup' : (rest.map Job.jobId).Nodup := hnd.2
      have htail := ih _ hrest hnodup'
      calc (q.addBulk (j :: rest)).jobs
          = ((q.add j.name j.monitorId j.delay j.enqueuedAt (some j.jobId)).addBulk
              rest).jobs := rfl
        _ = (q.add j.name j.monitorId j.delay j.enqueuedAt (some j.jobId)).jobs
              ++ rest := htail
        _ = (q.jobs ++ [j]) ++ rest := by rw [hstep]
        _ = q.jobs ++ (j :: rest) := by simp

/-- In a duplicate-free list of naturals, a member is counted exactly once. -/
theorem countP_eq_one_of_nodup_mem {a : Nat} : ∀ {l : List Nat}, l.Nodup → a ∈ l →
    l.countP (fun i => i = a) = 1 := by
  intro l
  induction l with
  | nil => intro _ h; exact absurd h (List.not_mem_nil _)
  | cons b t ih =>
      intro hnd hmem
      have hbt := List.nodup_cons.1 hnd
      rw [List.countP_cons]
      rcases List.mem_cons.1 hmem with heq | hmem
      · subst heq
        have ht0 : t.countP (fun i => i = a) = 0 := by
          rw [List.countP_eq_zero]
          intro x hx
          simp only [decide_eq_true_eq]
          intro hxa
          exact hbt.1 (hxa ▸ hx)
        simp [ht0]
      · have hne : b ≠ a := by
          intro h
          exact hbt.1 (h ▸ hmem)
        rw [ih hbt.2 hmem]
        simp [hne]

/-- C8: `startAllMonitors()` first purges every existing job (the queue
afterwards holds exactly the new bulk batch, whatever was there before),
then enqueues exactly one job per active monitor — assuming the monitors
from `active = 1` have pairwise-distinct ids — each carrying the
timestamped uniqueness token `"monitor-" + id + "-" + Date.now()` and a
jitter delay `Math.random() * 10000 ∈ [0, 10000)` ms, so every active
monitor has exactly one job enqueued within the first 10-second window. -/
theorem startAllMonitors_one_jittered_job_per_monitor
    (q : MonitorQueue) (monitors : List QMonitor) (rands : List ℚ) (now : Nat)
    (hlen : monitors.length = rands.length)
    (hnodup : (monitors.map QMonitor.id).Nodup)
    (hrand : ∀ r ∈ rands, 0 ≤ r ∧ r < 1) :
    (startAllMonitors q monitors rands now).jobs
        = (monitors.zip rands).map (startJob now) ∧
    (startAllMonitors q monitors rands now).jobs.map Job.monitorId
        = monitors.map QMonitor.id ∧
    (∀ m ∈ monitors,
        (startAllMonitors q monitors rands now).outstandingFor m.id = 1) ∧
    (∀ j ∈ (startAllMonitors q monitors rands now).jobs,
        0 ≤ j.delay ∧ j.delay < 10000) ∧
    (∀ j ∈ (startAllMonitors q monitors rands now).jobs,
        j.jobId = .stamped j.monitorId now) := by
  have hfst : (monitors.zip rands).map Prod.fst = monitors :=
    List.map_fst_zip _ _ (le_of_eq hlen)
  have hcomp : ((monitors.zip rands).map (QMonitor.id ∘ Prod.fst))
      = monitors.map QMonitor.id := by
    rw [← List.map_map, hfst]
  have hjids : ((monitors.zip rands).map (startJob now)).map Job.jobId
      = (monitors.map QMonitor.id).map (fun i => JobId.stamped i now) := by
    rw [List.map_map]
    have h1 : (Job.jobId ∘ startJob now)
        = ((fun i => JobId.stamped i now) ∘
            (QMonitor.id ∘ (Prod.fst : QMonitor × ℚ → QMonitor))) := rfl
    rw [h1, ← List.map_map, hcomp]
  have hinj : Function.Injective (fun i => JobId.stamped i now) := by
    intro a b h
    injection h with h1 h2
  have hjnodup : (((monitors.zip rands).map (startJob now)).map Job.jobId).Nodup := by
    rw [hjids]
    exact hnodup.map hinj
  have hjobs : (startAllMonitors q monitors rands now).jobs
      = (monitors.zip rands).map (startJob now) := by
    unfold startAllMonitors
    rw [addBulk_of_fresh _ _ (by intro j _ j0 hj0; exact absurd hj0 (List.not_mem_nil _))
      hjnodup]
    simp
  have hids : (startAllMonitors q monitors rands now).jobs.map Job.monitorId
      = monitors.map QMonitor.id := by
    rw [hjobs, List.map_map]
    have h1 : (Job.monitorId ∘ startJob now)
        = (QMonitor.id ∘ (Prod.fst : QMonitor × ℚ → QMonitor)) := rfl
    rw [h1, ← List.map_map, hfst]
  refine ⟨hjobs, hids, ?_, ?_, ?_⟩
  · intro m hm
    unfold MonitorQueue.outstandingFor
    rw [hjobs, ← List.countP_eq_length_filter, List.countP_map]
    have h1 : ((fun j => decide (j.monitorId = m.id)) ∘ startJob now)
        = ((fun i => decide (i = m.id)) ∘
            (QMonitor.id ∘ (Prod.fst : QMonitor × ℚ → QMonitor))) := rfl
    rw [h1, ← List.countP_map, hcomp]
    exact countP_eq_one_of_nodup_mem hnodup (List.mem_map_of_mem QMonitor.id hm)
  · intro j hj
    rw [hjobs] at hj
    obtain ⟨p, hp, rfl⟩ := List.mem_map.1 hj
    obtain ⟨m', r⟩ := p
    obtain ⟨hr0, hr1⟩ := hrand r (List.of_mem_zip hp).2
    constructor
    · simpa [startJob] using mul_nonneg hr0 (show (0:ℚ) ≤ 10000 by norm_num)
    · have h := mul_lt_mul_of_pos_right hr1 (show (0:ℚ) < 10000 by norm_num)
      simpa [startJob] using h
  · intro j hj
    rw [hjobs] at hj
    obtain ⟨p, hp, rfl⟩ := List.mem_map.1 hj
    rfl

/-- C8 witness: two active monitors (ids 1, 2) with jitter draws 3/10 and
1/2 at `Date.now() = 77`: monitor 1 ends up with exactly one outstanding
job. -/
theorem startAllMonitors_witness :
    (startAllMonitors MonitorQueue.empty [⟨1, 60, true⟩, ⟨2, 60, true⟩]
        [(3 : ℚ)/10, (1 : ℚ)/2] 77).outstandingFor 1 = 1 :=
  ((startAllMonitors_one_jittered_job_per_monitor MonitorQueue.empty
      [⟨1, 60, true⟩, ⟨2, 60, true⟩] [(3 : ℚ)/10, (1 : ℚ)/2] 77
      (by decide) (by decide)
      (by
        intro r hr
        rcases List.mem_cons.1 hr with rfl | hr
        · norm_num
        rcases List.mem_cons.1 hr with rfl | hr
        · norm_num
        exact absurd hr (List.not_mem_nil _))).2.2.1) ⟨1, 60, true⟩ (by decide)

end UptimeKuma
